import Mathlib

/-!
# lresolver: the per-query forwarding path of `main.go`

A shallow embedding of `resolve` and `main` from `src/main.go`.  The handler's
interaction with its collaborators (the `dns.ResponseWriter`, the outbound
`dns.Client`, the nameserver selector and `glog`) is recorded as an explicit
trace of calls, in program order, together with the way the call ended.
-/

namespace Lresolver

/-! ## Data model (the parts of `net` and `github.com/miekg/dns` that `main.go` touches) -/

/-- Go `error` value, identified by its text. A nil error is `none : Option GoError`. -/
structure GoError where
  msg : String
deriving DecidableEq, Repr

/-- Dynamic type of the `net.Addr` that `w.RemoteAddr()` returns.  `other` stands for every
implementation that is not `*net.TCPAddr` or `*net.UDPAddr`. -/
inductive NetAddr where
  | TCPAddr (ip : String) (port : Nat)
  | UDPAddr (ip : String) (port : Nat)
  | other (network : String) (repr : String)
deriving DecidableEq, Repr

/-- The type assertion `_, ok := a.(*net.TCPAddr)`: the value of `ok`. -/
def NetAddr.isTCPAddr : NetAddr → Bool
  | .TCPAddr _ _ => true
  | .UDPAddr _ _ => false
  | .other _ _ => false

/-- Entry of the question section, `dns.Question`. -/
structure Question where
  Name : String
  Qtype : Nat
  Qclass : Nat
deriving DecidableEq, Repr

/-- Common header of a resource record, `dns.RR_Header`. -/
structure RR_Header where
  Name : String
  Rrtype : Nat
  Class : Nat
  Ttl : Nat
  Rdlength : Nat
deriving DecidableEq, Repr

/-- Resource record: its header (what `rr.Header()` returns) and its uninterpreted data.
The records of a decoded message are never nil interfaces. -/
structure RR where
  Hdr : RR_Header
  rdata : String
deriving DecidableEq, Repr

/-- The method `rr.Header()`. -/
def RR.Header (rr : RR) : RR_Header := rr.Hdr

/-- Message header, `dns.MsgHdr`. -/
structure MsgHdr where
  Id : Nat
  Response : Bool
  Opcode : Nat
  Authoritative : Bool
  Truncated : Bool
  RecursionDesired : Bool
  RecursionAvailable : Bool
  Zero : Bool
  AuthenticatedData : Bool
  CheckingDisabled : Bool
  Rcode : Nat
deriving DecidableEq, Repr

/-- Decoded DNS message, `dns.Msg`.  A `*dns.Msg` that may be nil is an `Option Msg`. -/
structure Msg where
  MsgHdr : MsgHdr
  Compress : Bool
  Question : List Question
  Answer : List RR
  Ns : List RR
  Extra : List RR
deriving DecidableEq, Repr

/-- The constant `dns.RcodeSuccess`. -/
def RcodeSuccess : Nat := 0

/-- The constant `dns.RcodeServerFailure` (SERVFAIL). -/
def RcodeServerFailure : Nat := 2

/-- The constant `dns.OpcodeQuery`. -/
def OpcodeQuery : Nat := 0

/-- The zero value `new(dns.Msg)`. -/
def Msg.new : Msg :=
  { MsgHdr :=
      { Id := 0, Response := false, Opcode := 0, Authoritative := false, Truncated := false,
        RecursionDesired := false, RecursionAvailable := false, Zero := false,
        AuthenticatedData := false, CheckingDisabled := false, Rcode := 0 },
    Compress := false, Question := [], Answer := [], Ns := [], Extra := [] }

/-- The outbound client, `dns.Client`; `resolve` sets only the field `Net`. -/
structure Client where
  Net : String
deriving DecidableEq, Repr

/-- One argument of a `glog` call. -/
inductive LogArg where
  | str (s : String)
  | question (q : List Question)
  | rcodeToString (rcode : Nat)
  | duration (rtt : Nat)
  | ttl (t : Nat)
  | err (e : GoError)
deriving DecidableEq, Repr

/-- One observable call made while a query is handled.  `conn` identifies the
`dns.ResponseWriter` the call is made on. -/
inductive Event where
  | RemoteAddr (conn : Nat)
  | getNameserver (endpoint : String)
  | Infoln (args : List LogArg)
  | Errorln (args : List LogArg)
  | Exchange (c : Client) (m : Msg) (address : String)
  | HandleFailed (conn : Nat) (r : Option Msg)
  | WriteMsg (conn : Nat) (m : Msg)
deriving DecidableEq, Repr

/-- How a call ended: it returned, or a run-time panic unwound it. -/
inductive Outcome where
  | returned
  | panicked (reason : String)
deriving DecidableEq, Repr

/-- The `dns.ResponseWriter` handed to the handler: the connection it belongs to, the
address `RemoteAddr()` reports and the result of `WriteMsg` for each message. -/
structure ResponseWriter where
  conn : Nat
  remoteAddr : NetAddr
  writeMsg : Msg → Option GoError

/-- The method `(*dns.Msg).SetReply` of the library: the receiver becomes a reply to
`request`.  The request pointer is dereferenced unconditionally, so the caller
must pass a non-nil request. -/
def Msg.SetReply (m : Msg) (request : Msg) : Msg :=
  let h := m.MsgHdr
  let h1 := { h with Id := request.MsgHdr.Id, Response := true, Opcode := request.MsgHdr.Opcode }
  let h2 :=
    if h1.Opcode = OpcodeQuery then
      { h1 with RecursionDesired := request.MsgHdr.RecursionDesired,
                CheckingDisabled := request.MsgHdr.CheckingDisabled }
    else h1
  let h3 := { h2 with Rcode := RcodeSuccess }
  match request.Question with
  | [] => { m with MsgHdr := h3 }
  | q :: _ => { m with MsgHdr := h3, Question := [q] }

/-- The method `(*dns.Msg).SetRcode` of the library: `SetReply` followed by the
assignment of the response code. -/
def Msg.SetRcode (m : Msg) (request : Msg) (rcode : Nat) : Msg :=
  let r := m.SetReply request
  { r with MsgHdr := { r.MsgHdr with Rcode := rcode } }

/-- The library function `dns.HandleFailed(w, r)`: it builds `new(Msg).SetRcode(r, SERVFAIL)`
and writes it on `w`, ignoring the result of the write.  `r` is the request being
answered; with `r == nil` the dereference in `SetReply` panics before anything is
written. -/
def HandleFailed (w : ResponseWriter) (r : Option Msg) : List Event × Outcome :=
  match r with
  | none => ([Event.HandleFailed w.conn none], Outcome.panicked "nil pointer dereference")
  | some request =>
      let m := Msg.new.SetRcode request RcodeServerFailure
      ([Event.HandleFailed w.conn (some request), Event.WriteMsg w.conn m], Outcome.returned)

/-- What the handler depends on besides its arguments: the nameserver selector
(`getNameserver`, which reads and advances process-wide state of type `σ`) and the
network, as the result `(in, rtt, err)` of `client.Exchange(req, nameserver)`. -/
structure World (σ : Type) where
  getNameserver : σ → String × σ
  Exchange : Client → Msg → String → Option Msg × Nat × Option GoError

/-- Result of handling one query: the calls made, how the handler ended, and the
selector state it leaves behind. -/
structure Run (σ : Type) where
  trace : List Event
  outcome : Outcome
  sel : σ

/-- The handler `resolve(w, req)` of `main.go`. -/
def resolve {σ : Type} (W : World σ) (s : σ) (w : ResponseWriter) (req : Msg) : Run σ :=
  let transport := if w.remoteAddr.isTCPAddr then "tcp" else "udp"
  let ns := W.getNameserver s
  let nameserver := ns.1
  let client : Client := { Net := transport }
  let t0 : List Event :=
    [ Event.RemoteAddr w.conn,
      Event.getNameserver nameserver,
      Event.Infoln [.str "request for", .question req.Question, .str "transport",
        .str transport, .str "endpoint", .str nameserver],
      Event.Exchange client req nameserver ]
  match W.Exchange client req nameserver with
  | (in_, _, some _) =>
      let hf := HandleFailed w in_
      { trace := t0 ++ hf.1, outcome := hf.2, sel := ns.2 }
  | (none, _, none) =>
      { trace := t0, outcome := Outcome.panicked "nil pointer dereference", sel := ns.2 }
  | (some m, rtt, none) =>
      let t1 : List Event :=
        [ Event.Infoln [.str "response:", .rcodeToString m.MsgHdr.Rcode],
          Event.Infoln [.str "response rtt:", .duration rtt] ]
      let ttlStep : List Event × Outcome :=
        if 0 < m.Answer.length then
          match m.Answer[0]? with
          | some rr => ([Event.Infoln [.str "response ttl:", .ttl rr.Header.Ttl]], Outcome.returned)
          | none => ([], Outcome.panicked "index out of range")
        else ([], Outcome.returned)
      match ttlStep.2 with
      | Outcome.panicked reason =>
          { trace := t0 ++ t1 ++ ttlStep.1, outcome := Outcome.panicked reason, sel := ns.2 }
      | Outcome.returned =>
          let t2 : List Event :=
            match w.writeMsg m with
            | some e =>
                [ Event.WriteMsg w.conn m,
                  Event.Errorln [.str "error writing response to client:", .err e] ]
            | none => [Event.WriteMsg w.conn m]
          { trace := t0 ++ t1 ++ ttlStep.1 ++ t2, outcome := Outcome.returned, sel := ns.2 }

/-! ## Projections of a trace -/

/-- The outbound exchanges of a trace, in order: client, message sent, address. -/
def exchanges : List Event → List (Client × Msg × String)
  | [] => []
  | Event.Exchange c m a :: t => (c, m, a) :: exchanges t
  | _ :: t => exchanges t

/-- The `WriteMsg` calls of a trace, in order: connection written on and message. -/
def writes : List Event → List (Nat × Msg)
  | [] => []
  | Event.WriteMsg k m :: t => (k, m) :: writes t
  | _ :: t => writes t

/-- The `dns.HandleFailed` calls of a trace, in order: connection and message argument. -/
def failures : List Event → List (Nat × Option Msg)
  | [] => []
  | Event.HandleFailed k r :: t => (k, r) :: failures t
  | _ :: t => failures t

/-- The endpoints returned by the `getNameserver` calls of a trace, in order. -/
def selections : List Event → List String
  | [] => []
  | Event.getNameserver e :: t => e :: selections t
  | _ :: t => selections t

/-- The TTL an event logs, when it is a `"response ttl:"` line. -/
def loggedTtl : Event → Option Nat
  | Event.Infoln [LogArg.str "response ttl:", LogArg.ttl v] => some v
  | _ => none

/-- The TTL values logged by a trace (`"response ttl:"` lines), in order. -/
def ttlLogs (t : List Event) : List Nat := t.filterMap loggedTtl

/-! ## The upstream selector -/

/-- Modelled from the spec: the selector state behind `getNameserver`, which is not part of
`src/`: the configured endpoints in their fixed order and the rotating cursor (spec
section 3, "Selector State"). -/
structure Selector where
  endpoints : List String
  cursor : Nat
deriving DecidableEq, Repr

/-- Modelled from the spec: `getNameserver` is called by `resolve` but defined in a file
that is not part of `src/`.  The spec (sections 4.1, 8 and the glossary) gives the policy:
round-robin, cycling through the fixed ordered endpoint list and advancing one position
per call.  On an empty list (excluded at startup) the empty address is returned. -/
def getNameserver (s : Selector) : String × Selector :=
  (s.endpoints.getD (s.cursor % s.endpoints.length) "",
   { s with cursor := (s.cursor + 1) % s.endpoints.length })

/-- The endpoints returned by `n` consecutive `getNameserver` calls starting in state `s`. -/
def calls : Nat → Selector → List String
  | 0, _ => []
  | n + 1, s => (getNameserver s).1 :: calls n (getNameserver s).2

/-- The world in which `resolve` uses the round-robin selector. -/
def roundRobinWorld (ex : Client → Msg → String → Option Msg × Nat × Option GoError) :
    World Selector :=
  { getNameserver := getNameserver, Exchange := ex }

/-! ## Startup: `main` -/

/-- One observable step of `main`, in program order. -/
inductive MainEvent where
  | flagParse
  | SetDefault (key value : String)
  | SetConfigFile (path : String)
  | SetConfigName (name : String)
  | AddConfigPath (path : String)
  | ReadInConfig
  | readConfig
  | GetString (key : String)
  | Errorln (args : List String)
  | Infoln (args : List String)
  | newServer (Addr Net : String)
  | HandleFunc (pattern : String) (handler : String)
  | goListenAndServe (Addr Net : String)
  | signalNotify
  | awaitSignal
  | Shutdown (Addr Net : String)
  | Exit (code : Nat)
deriving DecidableEq, Repr

/-- How `main` ends: `os.Exit(code)`, a normal return, or blocked for ever on the
signal channel. -/
inductive MainOutcome where
  | exited (code : Nat)
  | returned
  | blocked
deriving DecidableEq, Repr

/-- What `main` reads from its surroundings: the `-config` flag after `flag.Parse()`, the
result of `viper.ReadInConfig()`, the value `readConfig()` returns (its definition is
not in `src/`), the configured `bind` address, the order in which each of the two
`range servers` loops visits the map, whether a signal ever arrives, and the result of
`Shutdown` for the server of each network. -/
structure MainEnv where
  config : String
  ReadInConfig : Option GoError
  readConfig : Int
  bind : String
  startUdpFirst : Bool
  stopUdpFirst : Bool
  signal : Bool
  Shutdown : String → Option GoError

/-- Iteration order over the map `servers`, whose keys are `"udp"` and `"tcp"`. -/
def mapOrder (udpFirst : Bool) : List String :=
  if udpFirst then ["udp", "tcp"] else ["tcp", "udp"]

/-- The steps of the final loop of `main` for one server. -/
def shutdownStep (E : MainEnv) (listenAddr net : String) : List MainEvent :=
  [MainEvent.Infoln ["shuting down server", listenAddr, "-", net], MainEvent.Shutdown listenAddr net] ++
    (match E.Shutdown net with
     | some err => [MainEvent.Errorln ["error shuting down server:", err.msg]]
     | none => [])

/-- The function `main` of `main.go`.  Each `go func(s)` is recorded as the start of the
listener goroutine (`goListenAndServe`); what the goroutine does afterwards is not part
of the trace of `main`. -/
def main (E : MainEnv) : List MainEvent × MainOutcome :=
  let t0 : List MainEvent :=
    [MainEvent.flagParse, MainEvent.SetDefault "bind" "127.0.0.1:53"] ++
      (if E.config ≠ "" then [MainEvent.SetConfigFile E.config]
       else [MainEvent.SetConfigName "lresolver", MainEvent.AddConfigPath "/etc/lresolver/",
             MainEvent.AddConfigPath "."]) ++
      [MainEvent.ReadInConfig]
  match E.ReadInConfig with
  | some err =>
      (t0 ++ [MainEvent.Errorln ["Fatal error config file", err.msg], MainEvent.Exit 1],
       MainOutcome.exited 1)
  | none =>
      if E.readConfig < 1 then
        (t0 ++ [MainEvent.readConfig,
                MainEvent.Errorln ["no name servers configured, exiting"], MainEvent.Exit 2],
         MainOutcome.exited 2)
      else
        let listenAddr := E.bind
        let t1 : List MainEvent :=
          t0 ++ [MainEvent.readConfig, MainEvent.GetString "bind",
                 MainEvent.Infoln ["will listen on address:", listenAddr]] ++
            ["udp", "tcp"].map (fun net => MainEvent.newServer listenAddr net) ++
            [MainEvent.HandleFunc "." "resolve"] ++
            (mapOrder E.startUdpFirst).map (fun net => MainEvent.goListenAndServe listenAddr net) ++
            [MainEvent.signalNotify, MainEvent.awaitSignal]
        if E.signal then
          (t1 ++ ((mapOrder E.stopUdpFirst).map (shutdownStep E listenAddr)).flatten,
           MainOutcome.returned)
        else (t1, MainOutcome.blocked)

/-- The step `e` creates a DNS server, registers the handler or starts a listener. -/
def MainEvent.serves : MainEvent → Bool
  | .newServer _ _ => true
  | .HandleFunc _ _ => true
  | .goListenAndServe _ _ => true
  | _ => false

/-! ## Concrete inputs -/

/-- A query for the A record of `example.com.` with transaction ID 4660. -/
def sampleQuery : Msg :=
  { Msg.new with
    MsgHdr := { Msg.new.MsgHdr with Id := 4660, RecursionDesired := true },
    Question := [{ Name := "example.com.", Qtype := 1, Qclass := 1 }] }

/-- An upstream answer to `sampleQuery` with one A record of TTL 300. -/
def sampleAnswer : Msg :=
  { sampleQuery with
    MsgHdr := { sampleQuery.MsgHdr with Response := true, RecursionAvailable := true },
    Answer := [{ Hdr := { Name := "example.com.", Rrtype := 1, Class := 1, Ttl := 300,
                          Rdlength := 4 },
                 rdata := "93.184.216.34" }] }

/-- An upstream answer to `sampleQuery` without any answer record (NXDOMAIN). -/
def sampleEmptyAnswer : Msg :=
  { sampleQuery with
    MsgHdr := { sampleQuery.MsgHdr with Response := true, RecursionAvailable := true,
                                        Rcode := 3 } }

/-- A reply that belongs to another query: its transaction ID is 9, not 4660. -/
def strayReply : Msg :=
  { sampleAnswer with MsgHdr := { sampleAnswer.MsgHdr with Id := 9 } }

/-- Writer of a UDP client; every write succeeds. -/
def udpWriter : ResponseWriter :=
  { conn := 1, remoteAddr := NetAddr.UDPAddr "192.0.2.7" 53211, writeMsg := fun _ => none }

/-- Writer of a TCP client; every write succeeds. -/
def tcpWriter : ResponseWriter :=
  { conn := 2, remoteAddr := NetAddr.TCPAddr "192.0.2.7" 40022, writeMsg := fun _ => none }

/-- Writer of a UDP client that has gone away; every write fails. -/
def brokenWriter : ResponseWriter :=
  { conn := 3, remoteAddr := NetAddr.UDPAddr "192.0.2.9" 40100,
    writeMsg := fun _ => some { msg := "write: connection refused" } }

/-- A world with one fixed endpoint whose exchange always gives the same result. -/
def fixedWorld (endpoint : String) (result : Option Msg × Nat × Option GoError) : World Unit :=
  { getNameserver := fun u => (endpoint, u), Exchange := fun _ _ _ => result }

/-- A start-up environment whose configuration file names no nameserver. -/
def emptyConfigEnv : MainEnv :=
  { config := "", ReadInConfig := none, readConfig := 0, bind := "127.0.0.1:53",
    startUdpFirst := true, stopUdpFirst := true, signal := true, Shutdown := fun _ => none }

/-- Three configured endpoints. -/
def threeEndpoints : List String := ["10.0.0.1:53", "10.0.0.2:53", "10.0.0.3:53"]

/-! ## Helper definitions and lemmas for the statements about `resolve` -/

/-- The transport `resolve` computes for the outbound client. -/
def transportOf (w : ResponseWriter) : String :=
  if w.remoteAddr.isTCPAddr then "tcp" else "udp"

/-- The triple `(in, rtt, err)` that the one `client.Exchange` call of `resolve` returns. -/
def upstream {σ : Type} (W : World σ) (s : σ) (w : ResponseWriter) (req : Msg) :
    Option Msg × Nat × Option GoError :=
  W.Exchange { Net := transportOf w } req (W.getNameserver s).1

/-- The calls `resolve` makes up to and including the exchange. -/
def prologue {σ : Type} (W : World σ) (s : σ) (w : ResponseWriter) (req : Msg) : List Event :=
  [ Event.RemoteAddr w.conn,
    Event.getNameserver (W.getNameserver s).1,
    Event.Infoln [.str "request for", .question req.Question, .str "transport",
      .str (transportOf w), .str "endpoint", .str (W.getNameserver s).1],
    Event.Exchange { Net := transportOf w } req (W.getNameserver s).1 ]

/-- The log lines of the success path that precede the write. -/
def successLogs (m : Msg) (rtt : Nat) : List Event :=
  [ Event.Infoln [.str "response:", .rcodeToString m.MsgHdr.Rcode],
    Event.Infoln [.str "response rtt:", .duration rtt] ] ++
  (match m.Answer with
   | [] => []
   | rr :: _ => [Event.Infoln [.str "response ttl:", .ttl rr.Hdr.Ttl]])

/-- The write of the success path and the log line that follows a failed write. -/
def writeStep (w : ResponseWriter) (m : Msg) : List Event :=
  match w.writeMsg m with
  | some e => [Event.WriteMsg w.conn m,
               Event.Errorln [.str "error writing response to client:", .err e]]
  | none => [Event.WriteMsg w.conn m]

theorem resolve_sel {σ : Type} (W : World σ) (s : σ) (w : ResponseWriter) (req : Msg) :
    (resolve W s w req).sel = (W.getNameserver s).2 := by
  simp only [resolve]
  split
  · rfl
  · rfl
  · split <;> rfl

theorem resolve_of_error {σ : Type} (W : World σ) (s : σ) (w : ResponseWriter) (req : Msg)
    (r : Option Msg) (rtt : Nat) (e : GoError) (h : upstream W s w req = (r, rtt, some e)) :
    (resolve W s w req).trace = prologue W s w req ++ (HandleFailed w r).1 ∧
    (resolve W s w req).outcome = (HandleFailed w r).2 := by
  simp only [upstream, transportOf] at h
  simp [resolve, h, prologue, transportOf]

theorem resolve_of_nil {σ : Type} (W : World σ) (s : σ) (w : ResponseWriter) (req : Msg)
    (rtt : Nat) (h : upstream W s w req = (none, rtt, none)) :
    (resolve W s w req).trace = prologue W s w req ∧
    (resolve W s w req).outcome = Outcome.panicked "nil pointer dereference" := by
  simp only [upstream, transportOf] at h
  simp [resolve, h, prologue, transportOf]

theorem resolve_of_success {σ : Type} (W : World σ) (s : σ) (w : ResponseWriter) (req : Msg)
    (m : Msg) (rtt : Nat) (h : upstream W s w req = (some m, rtt, none)) :
    (resolve W s w req).trace
      = prologue W s w req ++ successLogs m rtt ++ writeStep w m ∧
    (resolve W s w req).outcome = Outcome.returned := by
  simp only [upstream, transportOf] at h
  simp only [resolve, h, prologue, transportOf, successLogs, writeStep]
  cases hA : m.Answer with
  | nil => simp
  | cons rr rest => simp [RR.Header]

theorem exchanges_append (a b : List Event) : exchanges (a ++ b) = exchanges a ++ exchanges b := by
  induction a with
  | nil => rfl
  | cons e t ih => cases e <;> simp [exchanges, ih]

theorem writes_append (a b : List Event) : writes (a ++ b) = writes a ++ writes b := by
  induction a with
  | nil => rfl
  | cons e t ih => cases e <;> simp [writes, ih]

theorem failures_append (a b : List Event) : failures (a ++ b) = failures a ++ failures b := by
  induction a with
  | nil => rfl
  | cons e t ih => cases e <;> simp [failures, ih]

theorem selections_append (a b : List Event) :
    selections (a ++ b) = selections a ++ selections b := by
  induction a with
  | nil => rfl
  | cons e t ih => cases e <;> simp [selections, ih]

theorem exchanges_prologue {σ : Type} (W : World σ) (s : σ) (w : ResponseWriter) (req : Msg) :
    exchanges (prologue W s w req) = [({ Net := transportOf w }, req, (W.getNameserver s).1)] := rfl

theorem writes_prologue {σ : Type} (W : World σ) (s : σ) (w : ResponseWriter) (req : Msg) :
    writes (prologue W s w req) = [] := rfl

theorem failures_prologue {σ : Type} (W : World σ) (s : σ) (w : ResponseWriter) (req : Msg) :
    failures (prologue W s w req) = [] := rfl

theorem selections_prologue {σ : Type} (W : World σ) (s : σ) (w : ResponseWriter) (req : Msg) :
    selections (prologue W s w req) = [(W.getNameserver s).1] := rfl

theorem projections_successLogs (m : Msg) (rtt : Nat) :
    exchanges (successLogs m rtt) = [] ∧ writes (successLogs m rtt) = [] ∧
    failures (successLogs m rtt) = [] ∧ selections (successLogs m rtt) = [] := by
  unfold successLogs
  cases m.Answer <;> exact ⟨rfl, rfl, rfl, rfl⟩

theorem projections_writeStep (w : ResponseWriter) (m : Msg) :
    exchanges (writeStep w m) = [] ∧ writes (writeStep w m) = [(w.conn, m)] ∧
    failures (writeStep w m) = [] ∧ selections (writeStep w m) = [] := by
  unfold writeStep
  cases w.writeMsg m <;> exact ⟨rfl, rfl, rfl, rfl⟩

theorem projections_HandleFailed (w : ResponseWriter) (r : Option Msg) :
    exchanges (HandleFailed w r).1 = [] ∧ failures (HandleFailed w r).1 = [(w.conn, r)] ∧
    selections (HandleFailed w r).1 = [] ∧ (∀ x ∈ writes (HandleFailed w r).1, x.1 = w.conn) := by
  cases r with
  | none => exact ⟨rfl, rfl, rfl, by simp [HandleFailed, writes]⟩
  | some q => exact ⟨rfl, rfl, rfl, by simp [HandleFailed, writes]⟩

/-- The exchanges and selector calls of `resolve`, whatever the upstream answers. -/
theorem resolve_exchanges_selections {σ : Type} (W : World σ) (s : σ) (w : ResponseWriter)
    (req : Msg) :
    exchanges (resolve W s w req).trace
      = [({ Net := transportOf w }, req, (W.getNameserver s).1)] ∧
    selections (resolve W s w req).trace = [(W.getNameserver s).1] := by
  rcases h : upstream W s w req with ⟨r, rtt, _ | e⟩
  · cases r with
    | none =>
        rw [(resolve_of_nil W s w req rtt h).1]
        exact ⟨rfl, rfl⟩
    | some m =>
        rw [(resolve_of_success W s w req m rtt h).1]
        simp [exchanges_append, selections_append, exchanges_prologue, selections_prologue,
          projections_successLogs, projections_writeStep]
  · rw [(resolve_of_error W s w req r rtt e h).1]
    simp [exchanges_append, selections_append, exchanges_prologue, selections_prologue,
      projections_HandleFailed]

/-- Every write and every failure reply of `resolve` goes to the writer it was handed. -/
theorem resolve_writer {σ : Type} (W : World σ) (s : σ) (w : ResponseWriter) (req : Msg) :
    (∀ x ∈ writes (resolve W s w req).trace, x.1 = w.conn) ∧
    (∀ x ∈ failures (resolve W s w req).trace, x.1 = w.conn) := by
  rcases h : upstream W s w req with ⟨r, rtt, _ | e⟩
  · cases r with
    | none =>
        rw [(resolve_of_nil W s w req rtt h).1]
        simp [writes_prologue, failures_prologue]
    | some m =>
        rw [(resolve_of_success W s w req m rtt h).1]
        simp [writes_append, failures_append, writes_prologue, failures_prologue,
          projections_successLogs, projections_writeStep]
  · rw [(resolve_of_error W s w req r rtt e h).1]
    simp only [writes_append, failures_append, writes_prologue, failures_prologue,
      List.nil_append]
    refine ⟨(projections_HandleFailed w r).2.2.2, ?_⟩
    rw [(projections_HandleFailed w r).2.1]
    simp

/-! ## The forwarding path: `resolve` -/

/-- C1: for every query, the one outbound client `resolve` builds has `Net = "tcp"` exactly
when the writer's remote address is a `*net.TCPAddr` and `"udp"` otherwise (a UDP address
or any other address type), and every write and every failure reply is made on the
writer the query arrived on. -/
theorem resolve_preserves_transport {σ : Type} (W : World σ) (s : σ) (w : ResponseWriter)
    (req : Msg) :
    (exchanges (resolve W s w req).trace).map (fun x => x.1.Net)
      = [if w.remoteAddr.isTCPAddr then "tcp" else "udp"] ∧
    (∀ ip port, w.remoteAddr = NetAddr.TCPAddr ip port →
      (exchanges (resolve W s w req).trace).map (fun x => x.1.Net) = ["tcp"]) ∧
    (∀ ip port, w.remoteAddr = NetAddr.UDPAddr ip port →
      (exchanges (resolve W s w req).trace).map (fun x => x.1.Net) = ["udp"]) ∧
    (∀ network repr, w.remoteAddr = NetAddr.other network repr →
      (exchanges (resolve W s w req).trace).map (fun x => x.1.Net) = ["udp"]) ∧
    (∀ x ∈ writes (resolve W s w req).trace, x.1 = w.conn) ∧
    (∀ x ∈ failures (resolve W s w req).trace, x.1 = w.conn) := by
  have hx := (resolve_exchanges_selections W s w req).1
  have hw := resolve_writer W s w req
  refine ⟨?_, ?_, ?_, ?_, hw.1, hw.2⟩
  · rw [hx]; rfl
  · intro ip port h; rw [hx]; simp [transportOf, h, NetAddr.isTCPAddr]
  · intro ip port h; rw [hx]; simp [transportOf, h, NetAddr.isTCPAddr]
  · intro network repr h; rw [hx]; simp [transportOf, h, NetAddr.isTCPAddr]

/-- Witness for C1: a TCP client whose upstream answers. -/
theorem resolve_preserves_transport_witness :
    (exchanges (resolve (fixedWorld "10.0.0.1:53" (some sampleAnswer, 12, none)) ()
        tcpWriter sampleQuery).trace).map (fun x => x.1.Net) = ["tcp"] :=
  (resolve_preserves_transport (fixedWorld "10.0.0.1:53" (some sampleAnswer, 12, none)) ()
    tcpWriter sampleQuery).2.1 "192.0.2.7" 40022 rfl

/-- C5: for every query `req`, the message handed to the upstream exchange is `req`
itself: question, transaction ID, flags and every other field are those of `req`. -/
theorem resolve_forwards_request_unmodified {σ : Type} (W : World σ) (s : σ)
    (w : ResponseWriter) (req : Msg) :
    (exchanges (resolve W s w req).trace).map (fun x => x.2.1) = [req] := by
  rw [(resolve_exchanges_selections W s w req).1]; rfl

/-- C6: for every query and every result of the exchange, `resolve` calls `getNameserver`
exactly once (the selector state is advanced by exactly one call) and performs exactly
one exchange, with the endpoint that call returned. -/
theorem resolve_single_upstream_attempt {σ : Type} (W : World σ) (s : σ)
    (w : ResponseWriter) (req : Msg) :
    selections (resolve W s w req).trace = [(W.getNameserver s).1] ∧
    (exchanges (resolve W s w req).trace).map (fun x => x.2.2) = [(W.getNameserver s).1] ∧
    (resolve W s w req).sel = (W.getNameserver s).2 := by
  refine ⟨(resolve_exchanges_selections W s w req).2, ?_, resolve_sel W s w req⟩
  rw [(resolve_exchanges_selections W s w req).1]; rfl

/-- C4: when the exchange returns no error and the message `m`, `resolve` calls `WriteMsg`
exactly once, on the client's writer and with `m` itself, makes no call of
`dns.HandleFailed`, and returns. -/
theorem resolve_success_relays_verbatim {σ : Type} (W : World σ) (s : σ)
    (w : ResponseWriter) (req : Msg) (m : Msg)
    (herr : (upstream W s w req).2.2 = none) (hmsg : (upstream W s w req).1 = some m) :
    writes (resolve W s w req).trace = [(w.conn, m)] ∧
    failures (resolve W s w req).trace = [] ∧
    (resolve W s w req).outcome = Outcome.returned := by
  have h : upstream W s w req = (some m, (upstream W s w req).2.1, none) := by
    rw [← herr, ← hmsg]
  have hr := resolve_of_success W s w req m _ h
  rw [hr.1]
  simp [writes_append, failures_append, writes_prologue, failures_prologue,
    projections_successLogs, projections_writeStep, hr.2]

/-- Witness for C4: the scenario of the spec, one endpoint answering with TTL 300. -/
theorem resolve_success_relays_verbatim_witness :
    writes (resolve (fixedWorld "10.0.0.1:53" (some sampleAnswer, 12, none)) ()
        udpWriter sampleQuery).trace = [(1, sampleAnswer)] ∧
    failures (resolve (fixedWorld "10.0.0.1:53" (some sampleAnswer, 12, none)) ()
        udpWriter sampleQuery).trace = [] ∧
    (resolve (fixedWorld "10.0.0.1:53" (some sampleAnswer, 12, none)) ()
        udpWriter sampleQuery).outcome = Outcome.returned :=
  resolve_success_relays_verbatim (fixedWorld "10.0.0.1:53" (some sampleAnswer, 12, none)) ()
    udpWriter sampleQuery sampleAnswer rfl rfl

theorem ttlLogs_append (a b : List Event) : ttlLogs (a ++ b) = ttlLogs a ++ ttlLogs b := by
  simp [ttlLogs, List.filterMap_append]

/-- C9: for every successful exchange returning the message `m`, also one without answer
records, `resolve` returns normally (the access `in.Answer[0]` never goes out of range),
logs a TTL exactly when the answer section is non-empty, namely that of its first record,
and writes `m` to the client in both cases. -/
theorem resolve_first_answer_guarded {σ : Type} (W : World σ) (s : σ)
    (w : ResponseWriter) (req : Msg) (m : Msg) (rtt : Nat)
    (h : upstream W s w req = (some m, rtt, none)) :
    (resolve W s w req).outcome = Outcome.returned ∧
    ttlLogs (resolve W s w req).trace = (m.Answer.take 1).map (fun rr => rr.Header.Ttl) ∧
    writes (resolve W s w req).trace = [(w.conn, m)] := by
  have hr := resolve_of_success W s w req m rtt h
  refine ⟨hr.2, ?_, ?_⟩
  · rw [hr.1, ttlLogs_append, ttlLogs_append]
    have h1 : ttlLogs (prologue W s w req) = [] := rfl
    have h2 : ttlLogs (writeStep w m) = [] := by
      unfold writeStep
      cases w.writeMsg m <;> rfl
    rw [h1, h2]
    unfold successLogs
    cases m.Answer <;> rfl
  · rw [hr.1]
    simp [writes_append, writes_prologue, projections_successLogs, projections_writeStep]

/-- Witness for C9: an upstream response with an empty answer section. -/
theorem resolve_first_answer_guarded_witness :
    (resolve (fixedWorld "10.0.0.1:53" (some sampleEmptyAnswer, 30, none)) ()
        udpWriter sampleQuery).outcome = Outcome.returned ∧
    ttlLogs (resolve (fixedWorld "10.0.0.1:53" (some sampleEmptyAnswer, 30, none)) ()
        udpWriter sampleQuery).trace
      = (sampleEmptyAnswer.Answer.take 1).map (fun rr => rr.Header.Ttl) ∧
    writes (resolve (fixedWorld "10.0.0.1:53" (some sampleEmptyAnswer, 30, none)) ()
        udpWriter sampleQuery).trace = [(1, sampleEmptyAnswer)] :=
  resolve_first_answer_guarded (fixedWorld "10.0.0.1:53" (some sampleEmptyAnswer, 30, none)) ()
    udpWriter sampleQuery sampleEmptyAnswer 30 rfl

/-- C10: when the exchange succeeded with `m` and `w.WriteMsg(m)` returns the error `e`,
the run of `resolve` is the run with a succeeding write followed by one `glog.Errorln`
line: one write in all, no call of `dns.HandleFailed`, one exchange, normal return. -/
theorem resolve_write_error_only_logged {σ : Type} (W : World σ) (s : σ)
    (w : ResponseWriter) (req : Msg) (m : Msg) (rtt : Nat) (e : GoError)
    (h : upstream W s w req = (some m, rtt, none)) (hw : w.writeMsg m = some e) :
    (resolve W s w req).trace
      = (resolve W s { w with writeMsg := fun _ => none } req).trace ++
          [Event.Errorln [.str "error writing response to client:", .err e]] ∧
    writes (resolve W s w req).trace = [(w.conn, m)] ∧
    failures (resolve W s w req).trace = [] ∧
    (exchanges (resolve W s w req).trace).length = 1 ∧
    (resolve W s w req).outcome = Outcome.returned := by
  have hr := resolve_of_success W s w req m rtt h
  have h0 : upstream W s { w with writeMsg := fun _ => none } req = (some m, rtt, none) := h
  have hr0 := resolve_of_success W s { w with writeMsg := fun _ => none } req m rtt h0
  refine ⟨?_, ?_, ?_, ?_, hr.2⟩
  · rw [hr.1, hr0.1]
    simp [writeStep, hw, prologue, transportOf]
  · rw [hr.1]
    simp [writes_append, writes_prologue, projections_successLogs, projections_writeStep]
  · rw [hr.1]
    simp [failures_append, failures_prologue, projections_successLogs, projections_writeStep]
  · rw [(resolve_exchanges_selections W s w req).1]; rfl

/-- Witness for C10: the client went away before the answer could be written. -/
theorem resolve_write_error_only_logged_witness :
    (resolve (fixedWorld "10.0.0.1:53" (some sampleAnswer, 12, none)) ()
        brokenWriter sampleQuery).trace
      = (resolve (fixedWorld "10.0.0.1:53" (some sampleAnswer, 12, none)) ()
          { brokenWriter with writeMsg := fun _ => none } sampleQuery).trace ++
          [Event.Errorln [.str "error writing response to client:",
            .err { msg := "write: connection refused" }]] ∧
    writes (resolve (fixedWorld "10.0.0.1:53" (some sampleAnswer, 12, none)) ()
        brokenWriter sampleQuery).trace = [(3, sampleAnswer)] ∧
    failures (resolve (fixedWorld "10.0.0.1:53" (some sampleAnswer, 12, none)) ()
        brokenWriter sampleQuery).trace = [] ∧
    (exchanges (resolve (fixedWorld "10.0.0.1:53" (some sampleAnswer, 12, none)) ()
        brokenWriter sampleQuery).trace).length = 1 ∧
    (resolve (fixedWorld "10.0.0.1:53" (some sampleAnswer, 12, none)) ()
        brokenWriter sampleQuery).outcome = Outcome.returned :=
  resolve_write_error_only_logged (fixedWorld "10.0.0.1:53" (some sampleAnswer, 12, none)) ()
    brokenWriter sampleQuery sampleAnswer 12 { msg := "write: connection refused" } rfl rfl

/-- The failure branch is taken exactly on an error, and which error it is plays no part:
`dns.HandleFailed` is called once, with the pointer `in` the exchange returned, if the
exchange returned an error, and not at all otherwise. -/
theorem resolve_failure_path_iff_error {σ : Type} (W : World σ) (s : σ)
    (w : ResponseWriter) (req : Msg) :
    failures (resolve W s w req).trace
      = (match (upstream W s w req).2.2 with
         | some _ => [(w.conn, (upstream W s w req).1)]
         | none => []) := by
  rcases h : upstream W s w req with ⟨r, rtt, _ | e⟩
  · cases r with
    | none => rw [(resolve_of_nil W s w req rtt h).1]; rfl
    | some m =>
        rw [(resolve_of_success W s w req m rtt h).1]
        simp [failures_append, failures_prologue, projections_successLogs,
          projections_writeStep]
  · rw [(resolve_of_error W s w req r rtt e h).1]
    simp [failures_append, failures_prologue, projections_HandleFailed]

/-- On the failure branch, what is written to the client is computed from the pointer `in`
returned by the exchange and from nothing else: two different queries whose exchanges
fail with the same `in` produce the same writes and end the same way. -/
theorem resolve_failure_ignores_request {σ : Type} (W : World σ) (s : σ)
    (w : ResponseWriter) (req req2 : Msg) (r : Option Msg) (rtt rtt2 : Nat) (e e2 : GoError)
    (h : upstream W s w req = (r, rtt, some e))
    (h2 : upstream W s w req2 = (r, rtt2, some e2)) :
    writes (resolve W s w req).trace = writes (resolve W s w req2).trace ∧
    (resolve W s w req).outcome = (resolve W s w req2).outcome := by
  have a := resolve_of_error W s w req r rtt e h
  have b := resolve_of_error W s w req2 r rtt2 e2 h2
  rw [a.1, b.1, a.2, b.2]
  simp [writes_append, writes_prologue]

/-- C2 (evaluation at a failing input): a TCP client, the dial to the endpoint is refused,
so the exchange returns `(nil, 0, err)`.  `resolve` calls `dns.HandleFailed(w, nil)` once
and that call panics: `resolve` does not return and nothing is written to the client. -/
theorem resolve_failure_path_panics_on_nil_reply :
    failures (resolve (fixedWorld "10.0.0.1:53"
        (none, 0, some { msg := "dial tcp 10.0.0.1:53: connect: connection refused" })) ()
        tcpWriter sampleQuery).trace = [(2, none)] ∧
    (resolve (fixedWorld "10.0.0.1:53"
        (none, 0, some { msg := "dial tcp 10.0.0.1:53: connect: connection refused" })) ()
        tcpWriter sampleQuery).outcome = Outcome.panicked "nil pointer dereference" ∧
    writes (resolve (fixedWorld "10.0.0.1:53"
        (none, 0, some { msg := "dial tcp 10.0.0.1:53: connect: connection refused" })) ()
        tcpWriter sampleQuery).trace = [] := by
  refine ⟨rfl, rfl, rfl⟩

/-- C3 (evaluation at failing inputs): a UDP client sends the query with ID 4660.
(a) The endpoint does not answer and the exchange returns `(nil, 0, timeout)`: `resolve`
panics inside `dns.HandleFailed(w, nil)` and no message at all is sent to the client.
(b) The exchange returns a reply with ID 9 together with the error `dns: id mismatch`:
the one message sent to the client is a SERVFAIL reply to that reply, with ID 9. -/
theorem resolve_failure_reply_not_for_request :
    ((resolve (fixedWorld "10.0.0.1:53" (none, 0, some { msg := "i/o timeout" })) ()
        udpWriter sampleQuery).outcome = Outcome.panicked "nil pointer dereference" ∧
     writes (resolve (fixedWorld "10.0.0.1:53" (none, 0, some { msg := "i/o timeout" })) ()
        udpWriter sampleQuery).trace = []) ∧
    ((writes (resolve (fixedWorld "10.0.0.1:53"
          (some strayReply, 7, some { msg := "dns: id mismatch" })) ()
          udpWriter sampleQuery).trace).map (fun x => (x.2.MsgHdr.Id, x.2.MsgHdr.Rcode))
        = [(9, RcodeServerFailure)] ∧
     sampleQuery.MsgHdr.Id = 4660) := by
  refine ⟨⟨rfl, rfl⟩, rfl, rfl⟩

/-! ## Startup -/

/-- C7: when `readConfig()` reports fewer than one nameserver, `main` ends in `os.Exit`
without creating a DNS server, registering the handler or starting a listener, whatever
else the environment does; and when `readConfig()` is reached (the configuration file
was read without error) the exit status is 2 and `os.Exit(2)` is the last step. -/
theorem main_refuses_without_nameservers (E : MainEnv) (h : E.readConfig < 1) :
    (∀ e ∈ (main E).1, e.serves = false) ∧
    ((main E).2 = MainOutcome.exited 1 ∨ (main E).2 = MainOutcome.exited 2) ∧
    (E.ReadInConfig = none →
      (main E).2 = MainOutcome.exited 2 ∧
      (main E).1.getLast? = some (MainEvent.Exit 2) ∧
      MainEvent.readConfig ∈ (main E).1) := by
  have hmem : ∀ e ∈ (main E).1, e.serves = false := by
    intro e he
    unfold main at he
    cases hr : E.ReadInConfig <;> by_cases hcfg : E.config = "" <;>
      simp [hr, hcfg, h] at he <;> casesm* _ ∨ _ <;> subst_vars <;> rfl
  refine ⟨hmem, ?_, ?_⟩
  · unfold main
    cases hr : E.ReadInConfig <;> simp [h]
  · intro hr
    unfold main
    by_cases hcfg : E.config = "" <;> simp [hr, hcfg, h]

/-- Witness for C7: a configuration file that is read correctly and names no nameserver. -/
theorem main_refuses_without_nameservers_witness :
    (main emptyConfigEnv).2 = MainOutcome.exited 2 ∧
    (main emptyConfigEnv).1.getLast? = some (MainEvent.Exit 2) ∧
    MainEvent.readConfig ∈ (main emptyConfigEnv).1 :=
  (main_refuses_without_nameservers emptyConfigEnv (by decide)).2.2 rfl

/-! ## The selector -/

theorem calls_eq_map (eps : List String) (n c : Nat) :
    calls n ⟨eps, c⟩ = (List.range n).map (fun i => eps.getD ((c + i) % eps.length) "") := by
  induction n generalizing c with
  | zero => rfl
  | succ n ih =>
      rw [calls, List.range_succ_eq_map, List.map_cons, List.map_map]
      simp only [getNameserver, Nat.add_zero]
      rw [ih]
      congr 1
      apply List.map_congr_left
      intro i _
      simp only [Function.comp]
      congr 1
      rw [Nat.add_mod, Nat.mod_mod, ← Nat.add_mod]
      congr 1
      omega

theorem ceil_div_eq (n M : Nat) (hM : 0 < M) :
    (n + M - 1) / M = n / M + if n % M = 0 then 0 else 1 := by
  have hn := Nat.div_add_mod n M
  split_ifs with h
  · rw [h, Nat.add_zero] at hn
    have : n + M - 1 = (M - 1) + M * (n / M) := by omega
    rw [this, Nat.add_mul_div_left _ _ hM, Nat.div_eq_of_lt (by omega)]
    omega
  · have hlt := Nat.mod_lt n hM
    have : n + M - 1 = (n % M - 1) + M * (n / M + 1) := by
      rw [Nat.mul_add, Nat.mul_one]; omega
    rw [this, Nat.add_mul_div_left _ _ hM, Nat.div_eq_of_lt (by omega)]
    omega

theorem count_shifted (M c j n : Nat) (hM : 0 < M) (hj : j < M) :
    Nat.count (fun i => (c + i) % M = j) n = n / M ∨
    Nat.count (fun i => (c + i) % M = j) n = (n + M - 1) / M := by
  have hc := Nat.mod_lt c hM
  have key : ∀ i, ((c + i) % M = j) ↔ i ≡ j + (M - c % M) [MOD M] := by
    intro i
    have h1 : c + (j + (M - c % M)) ≡ j [MOD M] := by
      have e : c + (j + (M - c % M)) = j + M * (c / M + 1) := by
        have := Nat.div_add_mod c M
        rw [Nat.mul_add, Nat.mul_one]; omega
      rw [e]
      unfold Nat.ModEq
      rw [Nat.add_mul_mod_self_left]
    constructor
    · intro h
      have h2 : c + i ≡ c + (j + (M - c % M)) [MOD M] := by
        have : c + i ≡ j [MOD M] := by
          unfold Nat.ModEq; rw [h, Nat.mod_eq_of_lt hj]
        exact this.trans h1.symm
      exact Nat.ModEq.add_left_cancel' c h2
    · intro h
      have h2 : c + i ≡ j [MOD M] := (Nat.ModEq.add_left c h).trans h1
      unfold Nat.ModEq at h2
      rw [h2, Nat.mod_eq_of_lt hj]
  have hcount : Nat.count (fun i => (c + i) % M = j) n
      = Nat.count (fun i => i ≡ j + (M - c % M) [MOD M]) n := by
    simp only [Nat.count]
    apply List.countP_congr
    intro i _
    simp [key i]
  rw [hcount, Nat.count_modEq_card n hM, ceil_div_eq n M hM]
  by_cases h0 : n % M = 0
  · left; simp [h0]
  · by_cases h1 : (j + (M - c % M)) % M < n % M
    · right; simp [h0, h1]
    · left; simp [h1]

/-- C8: for the round-robin `getNameserver` over `M` distinct configured endpoints and any
starting cursor, every endpoint returned by `n` consecutive calls is a configured one, each
configured endpoint is returned exactly `⌊n/M⌋` or `⌈n/M⌉` times, and with the endpoints
`[a, b]` and the cursor at its start the first call returns `a` and the second `b`. -/
theorem getNameserver_round_robin (eps : List String) (c n : Nat)
    (hne : eps ≠ []) (hnd : eps.Nodup) :
    (∀ e ∈ calls n ⟨eps, c⟩, e ∈ eps) ∧
    (∀ e ∈ eps, (calls n ⟨eps, c⟩).count e = n / eps.length ∨
                (calls n ⟨eps, c⟩).count e = (n + eps.length - 1) / eps.length) ∧
    (∀ a b, eps = [a, b] → calls 2 ⟨eps, 0⟩ = [a, b]) := by
  have hM : 0 < eps.length := List.length_pos.mpr hne
  refine ⟨?_, ?_, ?_⟩
  · intro e he
    rw [calls_eq_map, List.mem_map] at he
    obtain ⟨i, _, rfl⟩ := he
    have hlt : (c + i) % eps.length < eps.length := Nat.mod_lt _ hM
    rw [List.getD_eq_getElem _ _ hlt]
    exact List.getElem_mem hlt
  · intro e he
    obtain ⟨j, hj, rfl⟩ := List.getElem_of_mem he
    have hcnt : (calls n ⟨eps, c⟩).count eps[j]
        = Nat.count (fun i => (c + i) % eps.length = j) n := by
      rw [calls_eq_map, List.count_eq_countP, List.countP_map]
      simp only [Nat.count]
      apply List.countP_congr
      intro i _
      have hlt : (c + i) % eps.length < eps.length := Nat.mod_lt _ hM
      simp only [Function.comp, List.getD_eq_getElem _ _ hlt, beq_iff_eq, decide_eq_true_eq]
      exact hnd.getElem_inj_iff
    rw [hcnt]
    exact count_shifted eps.length c j n hM hj
  · rintro a b rfl
    rfl

/-- The scenario of the spec with the round-robin selector in place: of two queries handled
one after the other against the endpoints `[a, b]`, the first is sent to `a` and the
second to `b`. -/
theorem resolve_two_queries_alternate
    (ex : Client → Msg → String → Option Msg × Nat × Option GoError)
    (w1 w2 : ResponseWriter) (q1 q2 : Msg) (a b : String) :
    (exchanges (resolve (roundRobinWorld ex) ⟨[a, b], 0⟩ w1 q1).trace).map (fun x => x.2.2)
      = [a] ∧
    (exchanges (resolve (roundRobinWorld ex)
        (resolve (roundRobinWorld ex) ⟨[a, b], 0⟩ w1 q1).sel w2 q2).trace).map
        (fun x => x.2.2) = [b] := by
  rw [(resolve_exchanges_selections _ _ w2 q2).1, resolve_sel,
    (resolve_exchanges_selections _ _ w1 q1).1]
  exact ⟨rfl, rfl⟩

/-- Witness for C8: seven calls against three endpoints. -/
theorem getNameserver_round_robin_witness :
    (calls 7 ⟨threeEndpoints, 0⟩).count "10.0.0.2:53" = 7 / threeEndpoints.length ∨
    (calls 7 ⟨threeEndpoints, 0⟩).count "10.0.0.2:53"
      = (7 + threeEndpoints.length - 1) / threeEndpoints.length :=
  (getNameserver_round_robin threeEndpoints 0 7 (by decide) (by decide)).2.1
    "10.0.0.2:53" (by decide)

end Lresolver
